import Mathlib

/-!
Verification of the Voizmatic API gateway client: a shallow embedding of
the error-normalization and session-handling layer from
src/app/services/api.ts and src/app/utils/errorHandling.ts, with
theorems settling the specified properties.

Modelling conventions:
- JSON values are the inductive Json (integers suffice for the numbers
  that occur in error bodies).
- A fetch either yields a Response (status, statusText, whether the
  content-type header includes application/json, and the outcome of
  parsing the body as JSON) or throws a JavaScript exception (JsExn:
  a TypeError, some other Error carrying a message, or a non-Error value).
- The TypeScript cast of an error body detail array to ValidationError[]
  is unchecked; reading loc/msg off a malformed element throws a
  TypeError at runtime, so parseApiError is embedded as returning
  Except JsExn ApiError.
- Each transport function returns a CallResult: the headers it sent, an
  Except Thrown payload (Thrown distinguishes a constructed
  VoizmaticApiError from a raw JavaScript exception), the token store
  after the call, and the redirect target scheduled via setTimeout, if
  any.
-/

namespace Voizmatic

/-- JSON values as delivered by response.json(). -/
inductive Json where
  | str (s : String)
  | num (n : Int)
  | bool (b : Bool)
  | null
  | arr (xs : List Json)
  | obj (fields : List (String × Json))

/-- Property lookup on a JSON value: first binding of the key on an
object, undefined (none) on everything else. -/
def Json.lookup : Json → String → Option Json
  | .obj fs, k => fs.lookup k
  | _, _ => none

/-- One segment of a validation-error location path (string or integer,
per the OpenAPI schema loc: (string | number)[]). -/
inductive LocSeg where
  | str (s : String)
  | int (n : Int)
deriving DecidableEq, Repr

/-- JavaScript stringification of a loc segment as performed by
Array.prototype.join. -/
def LocSeg.render : LocSeg → String
  | .str s => s
  | .int n => toString n

/-- ValidationError from the OpenAPI schema: loc, msg, type. -/
structure ValidationError where
  loc : List LocSeg
  msg : String
  type : String
deriving DecidableEq, Repr

/-- Decoding a JSON loc segment; anything that is not a string or a
number is not a valid segment. -/
def LocSeg.ofJson : Json → Option LocSeg
  | .str s => some (.str s)
  | .num n => some (.int n)
  | _ => none

/-- Decoding one element of a detail array into the ValidationError
shape asserted by the TypeScript cast. A malformed element makes the
formatting code throw at runtime (modelled by returning none here). -/
def ValidationError.ofJson (j : Json) : Option ValidationError :=
  match j.lookup "loc", j.lookup "msg", j.lookup "type" with
  | some (.arr l), some (.str m), some (.str t) =>
    (l.mapM LocSeg.ofJson).map (fun locs => ⟨locs, m, t⟩)
  | _, _, _ => none

/-- Rendered field name: err.loc.slice(1).join(.) with the JavaScript
falsy-string fallback to "field". -/
def fieldName (loc : List LocSeg) : String :=
  let f := String.intercalate "." ((loc.drop 1).map LocSeg.render)
  if f = "" then "field" else f

/-- One formatted validation line: st stands for the rendered field name
followed by a colon and the message. -/
def formatFieldError (e : ValidationError) : String :=
  fieldName e.loc ++ ": " ++ e.msg

/-- ApiError record built by parseApiError (originalError omitted: it is
never copied into the VoizmaticApiError class). -/
structure ApiError where
  message : String
  status : Option Nat
  statusText : Option String
  validationErrors : Option (List ValidationError)
deriving DecidableEq, Repr

/-- VoizmaticApiError: the typed error class; its constructor copies
message, status, statusText and validationErrors from an ApiError. -/
structure VoizmaticApiError where
  message : String
  status : Option Nat
  statusText : Option String
  validationErrors : Option (List ValidationError)
deriving DecidableEq, Repr

/-- Constructor new VoizmaticApiError(apiError). -/
def VoizmaticApiError.ofApiError (a : ApiError) : VoizmaticApiError :=
  ⟨a.message, a.status, a.statusText, a.validationErrors⟩

/-- JavaScript exceptions as distinguished by the catch cascades:
a TypeError (network failures from fetch, property reads on undefined),
any other Error instance carrying a message (for example a SyntaxError
from response.json()), or a thrown non-Error value. -/
inductive JsExn where
  | typeError (msg : String)
  | otherError (msg : String)
  | nonError
deriving DecidableEq, Repr

/-- An HTTP response as observed by the transport functions. body is the
outcome of response.json(): a parsed value or the message of the thrown
SyntaxError. -/
structure Response where
  status : Nat
  statusText : String
  contentTypeJson : Bool
  body : Except String Json

/-- response.ok per the Fetch specification: status in 200..299. -/
def Response.isOk (r : Response) : Bool :=
  decide (200 ≤ r.status ∧ r.status ≤ 299)

/-- Status-specific message switch at the end of parseApiError: msg0 is
the message accumulated from the error body (or the generic default),
and the fixed per-status table overrides it for the listed codes. The
400 case keeps a non-empty msg0; the 422 case keeps msg0 whenever
validationErrors was assigned, which includes an empty array. -/
def statusOverride (status : Nat) (msg0 : String)
    (validationErrors : Option (List ValidationError)) : String :=
  match status with
  | 400 => if msg0 = "" then "Bad request. Please check your input." else msg0
  | 401 => "Session expired or invalid. Please login again."
  | 403 => "Access forbidden. You do not have permission to perform this action."
  | 404 => "Resource not found."
  | 422 =>
    match validationErrors with
    | none => "Validation failed. Please check your input."
    | some _ => msg0
  | 429 => "Too many requests. Please try again later."
  | 500 => "Internal server error. Please try again later."
  | 502 => "Bad gateway. The server is temporarily unavailable."
  | 503 => "Service unavailable. Please try again later."
  | 504 => "Gateway timeout. The request took too long."
  | _ => msg0

/-- Generic message for status codes without a table entry. -/
def requestFailedMsg (status : Nat) : String :=
  "Request failed with status " ++ toString status

/-- Error-body interpretation step of parseApiError: a detail array is
cast to ValidationError entries and formatted with a semicolon join (a
malformed element makes the formatting throw a TypeError), a string
detail is taken verbatim, otherwise a string message field is taken
verbatim, otherwise the generic default stands. A falsy errorData
(absent, null, or a non-object that has neither property) lands on the
default as well. -/
def errorBodyStep (defaultMsg : String) (errorData : Option Json) :
    Except JsExn (String × Option (List ValidationError)) :=
  match errorData with
  | some d =>
    match d.lookup "detail" with
    | some (.arr l) =>
      match l.mapM ValidationError.ofJson with
      | some ves =>
        .ok (String.intercalate "; " (ves.map formatFieldError), some ves)
      | none =>
        .error (.typeError "cannot read properties of malformed validation entry")
    | some (.str s) => .ok (s, none)
    | _ =>
      match d.lookup "message" with
      | some (.str s) => .ok (s, none)
      | _ => .ok (defaultMsg, none)
  | none => .ok (defaultMsg, none)

/-- parseApiError from services/api.ts. The returned Except is .error
only when the detail field is an array containing an element that does
not match the ValidationError shape, in which case the formatting map
throws a TypeError. -/
def parseApiError (response : Response) (errorData : Option Json) :
    Except JsExn ApiError := do
  let (msg0, validationErrors) ←
    errorBodyStep (requestFailedMsg response.status) errorData
  pure ⟨statusOverride response.status msg0 validationErrors,
        some response.status, some response.statusText, validationErrors⟩

/-- Token store backed by the two localStorage keys
voizmatic_access_token and voizmatic_token_expiry. -/
structure TokenStore where
  token : Option String
  expiry : Option String
deriving DecidableEq, Repr

/-- tokenManager.getToken. -/
def tokenManager.getToken (st : TokenStore) : Option String :=
  st.token

/-- tokenManager.setToken. -/
def tokenManager.setToken (token expiresAt : String) (_st : TokenStore) :
    TokenStore :=
  ⟨some token, some expiresAt⟩

/-- tokenManager.clearToken. -/
def tokenManager.clearToken (_st : TokenStore) : TokenStore :=
  ⟨none, none⟩

/-- tokenManager.isTokenValid, parametrized by the JavaScript Date
parser (none models an Invalid Date, whose NaN comparison is false) and
the current time in milliseconds. Empty strings read from localStorage
are falsy and fail the initial guard. -/
def tokenManager.isTokenValid (parseDate : String → Option Int) (now : Int)
    (st : TokenStore) : Bool :=
  match st.token, st.expiry with
  | some token, some expiry =>
    if token = "" ∨ expiry = "" then false
    else
      match parseDate expiry with
      | some t => decide (now < t)
      | none => false
  | _, _ => false

/-- Outcome of one fetch invocation: a response, or a thrown exception
(a TypeError models a transport-level network failure). -/
inductive FetchOutcome where
  | response (r : Response)
  | thrown (e : JsExn)

/-- Values thrown inside the try block of a transport function: either a
constructed VoizmaticApiError or a raw JavaScript exception. -/
inductive Thrown where
  | api (e : VoizmaticApiError)
  | js (e : JsExn)
deriving DecidableEq, Repr

/-- Request headers for apiCall: Content-Type plus caller overrides,
then the Authorization header assigned when the call requires
authentication and a token is stored. -/
def requestHeaders (base : List (String × String)) (requiresAuth : Bool)
    (st : TokenStore) : List (String × String) :=
  let hs := ("Content-Type", "application/json") :: base
  match requiresAuth, st.token with
  | true, some t => hs ++ [("Authorization", "Bearer " ++ t)]
  | _, _ => hs

/-- Request headers for the upload and download variants: no JSON
content type, only the optional Authorization header. -/
def requestHeadersBare (requiresAuth : Bool) (st : TokenStore) :
    List (String × String) :=
  match requiresAuth, st.token with
  | true, some t => [("Authorization", "Bearer " ++ t)]
  | _, _ => []

/-- The VoizmaticApiError thrown on the 401 branch of every transport
function. -/
def sessionExpiredError (r : Response) : VoizmaticApiError :=
  ⟨"Session expired. Please login again.", some 401, some r.statusText, none⟩

/-- Error body extraction on a non-2xx response: the body is read only
under a JSON content type, and a JSON parse failure is swallowed by the
inner catch (logged, errorData stays undefined). -/
def errorDataOf (r : Response) : Option Json :=
  if r.contentTypeJson then
    match r.body with
    | .ok j => some j
    | .error _ => none
  else none

/-- The value thrown for a non-2xx, non-401 response: the
VoizmaticApiError built by parseApiError, or the raw TypeError when
parseApiError itself throws on a malformed detail array. -/
def failedResponseThrown (r : Response) : Thrown :=
  match parseApiError r (errorDataOf r) with
  | .ok a => .api (VoizmaticApiError.ofApiError a)
  | .error e => .js e

/-- The catch cascade shared by all transport functions: rethrow a
VoizmaticApiError as-is, wrap a TypeError as the network error message,
wrap any other Error preserving its message, and wrap a non-Error value
with the fallback message. -/
def normalizeThrown (networkMsg fallbackMsg : String) : Thrown →
    VoizmaticApiError
  | .api e => e
  | .js (.typeError _) => ⟨networkMsg, none, none, none⟩
  | .js (.otherError m) => ⟨m, none, none, none⟩
  | .js .nonError => ⟨fallbackMsg, none, none, none⟩

/-- Result of one transport-function invocation: headers sent, payload
or error, the token store afterwards, and the redirect target scheduled
via setTimeout, if any. -/
structure CallResult (α : Type) where
  sentHeaders : List (String × String)
  result : Except Thrown α
  store : TokenStore
  scheduledRedirect : Option String

/-- Body of the try block of apiCall: 401 handling, non-2xx error
normalization, then JSON deserialization of the success payload (an
empty object for non-JSON 2xx responses). -/
def apiCallTry (st : TokenStore) (outcome : FetchOutcome) :
    Except Thrown Json × TokenStore × Option String :=
  match outcome with
  | .thrown e => (.error (.js e), st, none)
  | .response r =>
    if r.status = 401 then
      (.error (.api (sessionExpiredError r)), tokenManager.clearToken st, some "/")
    else if ¬ r.isOk then
      (.error (failedResponseThrown r), st, none)
    else if r.contentTypeJson then
      match r.body with
      | .ok j => (.ok j, st, none)
      | .error m => (.error (.js (.otherError m)), st, none)
    else (.ok (Json.obj []), st, none)

/-- apiCall from services/api.ts: request dispatch with bearer-token
injection followed by the try body and the catch cascade. -/
def apiCall (requiresAuth : Bool) (base : List (String × String))
    (st : TokenStore) (outcome : FetchOutcome) : CallResult Json :=
  let t := apiCallTry st outcome
  ⟨requestHeaders base requiresAuth st,
   t.1.mapError (fun th => .api (normalizeThrown
     "Network error. Please check your internet connection."
     "An unexpected error occurred" th)),
   t.2.1, t.2.2⟩

/-- Body of the try block of apiUpload: as apiCall, except that the
success payload is always deserialized as JSON regardless of the
content type. -/
def apiUploadTry (st : TokenStore) (outcome : FetchOutcome) :
    Except Thrown Json × TokenStore × Option String :=
  match outcome with
  | .thrown e => (.error (.js e), st, none)
  | .response r =>
    if r.status = 401 then
      (.error (.api (sessionExpiredError r)), tokenManager.clearToken st, some "/")
    else if ¬ r.isOk then
      (.error (failedResponseThrown r), st, none)
    else
      match r.body with
      | .ok j => (.ok j, st, none)
      | .error m => (.error (.js (.otherError m)), st, none)

/-- apiUpload from services/api.ts. -/
def apiUpload (requiresAuth : Bool) (st : TokenStore)
    (outcome : FetchOutcome) : CallResult Json :=
  let t := apiUploadTry st outcome
  ⟨requestHeadersBare requiresAuth st,
   t.1.mapError (fun th => .api (normalizeThrown
     "Network error during upload. Please check your internet connection."
     "Upload failed" th)),
   t.2.1, t.2.2⟩

/-- Body of the try block of apiDownload: the success path drives a
browser save-as side effect and resolves with no payload. -/
def apiDownloadTry (st : TokenStore) (outcome : FetchOutcome) :
    Except Thrown Unit × TokenStore × Option String :=
  match outcome with
  | .thrown e => (.error (.js e), st, none)
  | .response r =>
    if r.status = 401 then
      (.error (.api (sessionExpiredError r)), tokenManager.clearToken st, some "/")
    else if ¬ r.isOk then
      (.error (failedResponseThrown r), st, none)
    else (.ok (), st, none)

/-- apiDownload from services/api.ts. -/
def apiDownload (requiresAuth : Bool) (st : TokenStore)
    (outcome : FetchOutcome) : CallResult Unit :=
  let t := apiDownloadTry st outcome
  ⟨requestHeadersBare requiresAuth st,
   t.1.mapError (fun th => .api (normalizeThrown
     "Network error during download. Please check your internet connection."
     "Download failed" th)),
   t.2.1, t.2.2⟩

/-- Body of the try block of apiDownloadBlob: the success path resolves
with the response bytes (modelled as a String). -/
def apiDownloadBlobTry (blobBytes : String) (st : TokenStore)
    (outcome : FetchOutcome) : Except Thrown String × TokenStore × Option String :=
  match outcome with
  | .thrown e => (.error (.js e), st, none)
  | .response r =>
    if r.status = 401 then
      (.error (.api (sessionExpiredError r)), tokenManager.clearToken st, some "/")
    else if ¬ r.isOk then
      (.error (failedResponseThrown r), st, none)
    else (.ok blobBytes, st, none)

/-- apiDownloadBlob from services/api.ts. -/
def apiDownloadBlob (blobBytes : String) (requiresAuth : Bool)
    (st : TokenStore) (outcome : FetchOutcome) : CallResult String :=
  let t := apiDownloadBlobTry blobBytes st outcome
  ⟨requestHeadersBare requiresAuth st,
   t.1.mapError (fun th => .api (normalizeThrown
     "Network error during download. Please check your internet connection."
     "Download failed" th)),
   t.2.1, t.2.2⟩

/-- AuthResponse from the authentication endpoints. -/
structure AuthResponse where
  access_token : String
  token_type : String
  expires_at : String
deriving DecidableEq, Repr

/-- Token-store effect of a successful api.auth.login: the returned
token and expiry are stored. -/
def loginStoreToken (resp : AuthResponse) (st : TokenStore) : TokenStore :=
  tokenManager.setToken resp.access_token resp.expires_at st

/-- VoizmaticApiError.getValidationErrorMessage: the newline-joined
field-by-field rendering, falling back to the plain message when there
are no validation errors. -/
def VoizmaticApiError.getValidationErrorMessage (e : VoizmaticApiError) :
    String :=
  match e.validationErrors with
  | none => e.message
  | some [] => e.message
  | some ves => String.intercalate "\n" (ves.map formatFieldError)

/-- JavaScript lowercase conversion used by the includes checks. -/
def jsToLower (s : String) : String :=
  String.mk (s.data.map Char.toLower)

/-- Prefix test on character lists (an empty pattern matches). -/
def charsStartWith : List Char → List Char → Bool
  | _, [] => true
  | [], _ :: _ => false
  | c :: cs, d :: ds => if c = d then charsStartWith cs ds else false

/-- Substring search on character lists. -/
def charsContain : List Char → List Char → Bool
  | hay, needle =>
    if charsStartWith hay needle then true
    else
      match hay with
      | [] => false
      | _ :: rest => charsContain rest needle

/-- JavaScript String.prototype.includes. -/
def jsIncludes (s t : String) : Bool :=
  charsContain s.data t.data

/-- Unknown error values as discriminated by the errorHandling
utilities: a VoizmaticApiError (checked first, before the plain Error
branch it also instantiates), any other Error with its name and
message, a string, a non-Error object with a message property (m is the
String conversion of that property), or anything else. -/
inductive ErrVal where
  | apiErr (e : VoizmaticApiError)
  | jsError (name : String) (msg : String)
  | strVal (s : String)
  | objWithMessage (m : String)
  | otherVal

/-- getErrorMessage from utils/errorHandling.ts. -/
def getErrorMessage : ErrVal → String
  | .apiErr e =>
    match e.validationErrors with
    | some ves =>
      if ves.length > 0 then e.getValidationErrorMessage else e.message
    | none => e.message
  | .jsError _ m => m
  | .strVal s => s
  | .objWithMessage m => m
  | .otherVal => "An unexpected error occurred"

/-- isNetworkError from utils/errorHandling.ts. -/
def isNetworkError : ErrVal → Bool
  | .apiErr e => jsIncludes (jsToLower e.message) "network"
  | .jsError name msg =>
    jsIncludes (jsToLower msg) "network" || jsIncludes (jsToLower msg) "fetch"
      || name = "TypeError"
  | _ => false

/-- isAuthError from utils/errorHandling.ts. -/
def isAuthError : ErrVal → Bool
  | .apiErr e => e.status = some 401
  | _ => false

/-- isValidationError from utils/errorHandling.ts. -/
def isValidationError : ErrVal → Bool
  | .apiErr e =>
    e.status = some 422 && e.validationErrors.isSome
      && decide (0 < (e.validationErrors.getD []).length)
  | _ => false

/-- isPermissionError from utils/errorHandling.ts. -/
def isPermissionError : ErrVal → Bool
  | .apiErr e => e.status = some 403
  | _ => false

/-- isNotFoundError from utils/errorHandling.ts. -/
def isNotFoundError : ErrVal → Bool
  | .apiErr e => e.status = some 404
  | _ => false

/-- isServerError from utils/errorHandling.ts. -/
def isServerError : ErrVal → Bool
  | .apiErr e =>
    match e.status with
    | some s => decide (500 ≤ s)
    | none => false
  | _ => false

/-- Severity levels for UI display. -/
inductive ErrorSeverity where
  | info
  | warning
  | error
  | critical
deriving DecidableEq, Repr

/-- getErrorSeverity from utils/errorHandling.ts. -/
def getErrorSeverity (e : ErrVal) : ErrorSeverity :=
  if isValidationError e then .warning
  else if isNotFoundError e then .info
  else if isAuthError e || isPermissionError e then .warning
  else if isServerError e then .critical
  else if isNetworkError e then .error
  else .error

/-- Modelled from the spec (for the refinement in C8): the severity
classification as the claim words it, with the categories applied in
the listed priority order — validation, then not-found, then
authentication and permission, then server errors, then network errors,
and everything unclassified mapping to error. -/
def specSeverity (e : ErrVal) : ErrorSeverity :=
  if isValidationError e then .warning
  else if isNotFoundError e then .info
  else if isAuthError e then .warning
  else if isPermissionError e then .warning
  else if isServerError e then .critical
  else if isNetworkError e then .error
  else .error

/-- Concrete 422 body from the spec: one missing-phone validation
entry. -/
def phoneDetailEntry : Json :=
  Json.obj [("loc", Json.arr [Json.str "body", Json.str "phone"]),
            ("msg", Json.str "required"), ("type", Json.str "missing")]

/-- JSON body with a one-element detail array. -/
def phoneDetailBody : Json :=
  Json.obj [("detail", Json.arr [phoneDetailEntry])]

/-- The decoded FieldError for the missing phone. -/
def phoneValidationError : ValidationError :=
  ⟨[LocSeg.str "body", LocSeg.str "phone"], "required", "missing"⟩

/-- Second validation entry, for exercising multi-field formatting. -/
def emailDetailEntry : Json :=
  Json.obj [("loc", Json.arr [Json.str "body", Json.str "email"]),
            ("msg", Json.str "invalid"), ("type", Json.str "value_error")]

/-- JSON body with a two-element detail array. -/
def twoFieldDetailBody : Json :=
  Json.obj [("detail", Json.arr [phoneDetailEntry, emailDetailEntry])]

/-- The two decoded FieldErrors of twoFieldDetailBody. -/
def twoFieldErrors : List ValidationError :=
  [phoneValidationError,
   ⟨[LocSeg.str "body", LocSeg.str "email"], "invalid", "value_error"⟩]

/-- The Typed API Error the transport layer builds for a 422 response
carrying twoFieldDetailBody. -/
def twoFieldApiError : VoizmaticApiError :=
  ⟨"phone: required; email: invalid", some 422, some "Unprocessable Entity",
   some twoFieldErrors⟩

/-- The Typed API Error produced for a transport-level connection
failure (fetch throwing a TypeError). -/
def networkFailureApiError : VoizmaticApiError :=
  normalizeThrown "Network error. Please check your internet connection."
    "An unexpected error occurred" (.js (.typeError "Failed to fetch"))

/-- The Typed API Error produced for an HTTP 500 with no parsable
body. -/
def http500ApiError : VoizmaticApiError :=
  ⟨"Internal server error. Please try again later.", some 500,
   some "Internal Server Error", none⟩

/-- A 500 response whose body is not parsable as JSON. -/
def http500UnparsableResponse : Response :=
  ⟨500, "Internal Server Error", true, .error "Unexpected token < in JSON"⟩

/-- Helper: the catch cascade never leaves a raw JavaScript exception
in the result. -/
lemma mapError_ne_js {α : Type} (n f : String) (t : Except Thrown α)
    (j : JsExn) :
    Except.mapError (fun th => Thrown.api (normalizeThrown n f th)) t ≠
      Except.error (Thrown.js j) := by
  cases t with
  | ok a => simp [Except.mapError]
  | error th => simp [Except.mapError]

/-- Helper: the catch cascade turns any thrown value into a constructed
VoizmaticApiError. -/
lemma mapError_of_error {α : Type} (n f : String) (t : Except Thrown α)
    (th : Thrown) (h : t = Except.error th) :
    Except.mapError (fun x => Thrown.api (normalizeThrown n f x)) t =
      Except.error (Thrown.api (normalizeThrown n f th)) := by
  subst h; rfl

/-- Helper: on any non-2xx response, the try body of apiCall ends in a
throw. -/
lemma apiCallTry_not_ok (st : TokenStore) (r : Response)
    (h : ¬ r.isOk = true) :
    ∃ th, (apiCallTry st (.response r)).1 = Except.error th := by
  by_cases h4 : r.status = 401
  · exact ⟨Thrown.api (sessionExpiredError r), by simp [apiCallTry, h4]⟩
  · exact ⟨failedResponseThrown r, by simp [apiCallTry, h4, h]⟩

/-- Helper: on any non-2xx response, the try body of apiUpload ends in
a throw. -/
lemma apiUploadTry_not_ok (st : TokenStore) (r : Response)
    (h : ¬ r.isOk = true) :
    ∃ th, (apiUploadTry st (.response r)).1 = Except.error th := by
  by_cases h4 : r.status = 401
  · exact ⟨Thrown.api (sessionExpiredError r), by simp [apiUploadTry, h4]⟩
  · exact ⟨failedResponseThrown r, by simp [apiUploadTry, h4, h]⟩

/-- Helper: on any non-2xx response, the try body of apiDownload ends
in a throw. -/
lemma apiDownloadTry_not_ok (st : TokenStore) (r : Response)
    (h : ¬ r.isOk = true) :
    ∃ th, (apiDownloadTry st (.response r)).1 = Except.error th := by
  by_cases h4 : r.status = 401
  · exact ⟨Thrown.api (sessionExpiredError r), by simp [apiDownloadTry, h4]⟩
  · exact ⟨failedResponseThrown r, by simp [apiDownloadTry, h4, h]⟩

/-- Helper: on any non-2xx response, the try body of apiDownloadBlob
ends in a throw. -/
lemma apiDownloadBlobTry_not_ok (blob : String) (st : TokenStore)
    (r : Response) (h : ¬ r.isOk = true) :
    ∃ th, (apiDownloadBlobTry blob st (.response r)).1 = Except.error th := by
  by_cases h4 : r.status = 401
  · exact ⟨Thrown.api (sessionExpiredError r), by simp [apiDownloadBlobTry, h4]⟩
  · exact ⟨failedResponseThrown r, by simp [apiDownloadBlobTry, h4, h]⟩

/-- Helper: the typed error apiCall yields for a non-2xx, non-401
response whose parseApiError run succeeds. -/
lemma apiCall_result_of_parse (requiresAuth : Bool)
    (base : List (String × String)) (st : TokenStore) (r : Response)
    (h401 : r.status ≠ 401) (hok : ¬ r.isOk = true) (a : ApiError)
    (hp : parseApiError r (errorDataOf r) = Except.ok a) :
    (apiCall requiresAuth base st (.response r)).result =
      Except.error (Thrown.api (VoizmaticApiError.ofApiError a)) := by
  simp [apiCall, apiCallTry, h401, hok, failedResponseThrown, hp,
    Except.mapError, normalizeThrown]

/-- Helper: parseApiError in terms of a computed error-body step. -/
lemma parseApiError_of_step (r : Response) (ed : Option Json)
    (msg0 : String) (ves : Option (List ValidationError))
    (h : errorBodyStep (requestFailedMsg r.status) ed = .ok (msg0, ves)) :
    parseApiError r ed =
      Except.ok ⟨statusOverride r.status msg0 ves, some r.status,
        some r.statusText, ves⟩ := by
  simp [parseApiError, h]

/-- C2: on every HTTP 401 response, whatever the body contained,
apiCall clears the stored session token (the returned store is empty
even for a caller that ignores the error), schedules the
fire-and-forget redirect to the login entry point (the root path, via
setTimeout), and fails with a VoizmaticApiError of status 401 carrying
the fixed session-expired message. -/
theorem apiCall_401_clears_token_redirects_and_fails_typed :
    ∀ (requiresAuth : Bool) (base : List (String × String))
      (st : TokenStore) (r : Response),
      r.status = 401 →
      apiCall requiresAuth base st (.response r) =
        ⟨requestHeaders base requiresAuth st,
         Except.error (Thrown.api ⟨"Session expired. Please login again.",
           some 401, some r.statusText, none⟩),
         ⟨none, none⟩, some "/"⟩ := by
  intro requiresAuth base st r h
  simp [apiCall, apiCallTry, h, sessionExpiredError, tokenManager.clearToken,
    Except.mapError, normalizeThrown]

/-- Witness for C2 at a concrete 401 response with a JSON body. -/
theorem apiCall_401_clears_token_redirects_and_fails_typed_witness :
    apiCall true [] ⟨some "tok", some "2030-01-01"⟩
        (.response ⟨401, "Unauthorized", true, .ok (Json.obj [("detail", Json.str "bad token")])⟩) =
      ⟨requestHeaders [] true ⟨some "tok", some "2030-01-01"⟩,
       Except.error (Thrown.api ⟨"Session expired. Please login again.",
         some 401, some "Unauthorized", none⟩),
       ⟨none, none⟩, some "/"⟩ :=
  apiCall_401_clears_token_redirects_and_fails_typed true []
    ⟨some "tok", some "2030-01-01"⟩
    ⟨401, "Unauthorized", true, .ok (Json.obj [("detail", Json.str "bad token")])⟩ rfl

/-- C5 (code bug): a 422 response whose JSON body is a detail field
holding an empty array produces a Typed API Error whose status is 422
but whose message is the empty string: the validation join over zero
entries is empty, and the 422 fallback branch is skipped because the
(empty) validationErrors array was assigned. The specified property
that the message is non-empty for every status in the table fails
here. -/
theorem apiCall_422_empty_detail_gives_empty_message :
    (apiCall true [] ⟨none, none⟩
        (.response ⟨422, "Unprocessable Entity", true,
          .ok (Json.obj [("detail", Json.arr [])])⟩)).result =
      Except.error (Thrown.api ⟨"", some 422, some "Unprocessable Entity",
        some []⟩) := rfl

/-- C10: a call that requires authentication while no token is stored
still goes out: the transport functions behave exactly as an
unauthenticated call (no local precondition failure, no early error),
the Authorization header is simply omitted, and the outcome of the
fetch alone determines the result (the result component never depends
on the token store). -/
theorem apiCall_without_token_still_requests :
    ∀ (base : List (String × String)) (blob : String)
      (outcome : FetchOutcome) (expiry : Option String)
      (st1 st2 : TokenStore),
      (apiCall true base ⟨none, expiry⟩ outcome =
          apiCall false base ⟨none, expiry⟩ outcome ∧
        apiUpload true ⟨none, expiry⟩ outcome =
          apiUpload false ⟨none, expiry⟩ outcome ∧
        apiDownload true ⟨none, expiry⟩ outcome =
          apiDownload false ⟨none, expiry⟩ outcome ∧
        apiDownloadBlob blob true ⟨none, expiry⟩ outcome =
          apiDownloadBlob blob false ⟨none, expiry⟩ outcome) ∧
      (requestHeaders base true ⟨none, expiry⟩ =
          ("Content-Type", "application/json") :: base ∧
        requestHeadersBare true ⟨none, expiry⟩ = []) ∧
      (apiCall true base st1 outcome).result =
        (apiCall true base st2 outcome).result := by
  intro base blob outcome expiry st1 st2
  refine ⟨⟨rfl, rfl, rfl, rfl⟩, ⟨rfl, rfl⟩, ?_⟩
  cases outcome with
  | thrown e => rfl
  | response r =>
    have h : (apiCallTry st1 (.response r)).1 = (apiCallTry st2 (.response r)).1 := by
      simp only [apiCallTry]
      split_ifs <;> first
      | rfl
      | cases r.body <;> rfl
    show Except.mapError _ (apiCallTry st1 (.response r)).1 =
      Except.mapError _ (apiCallTry st2 (.response r)).1
    rw [h]

/-- Helper: the status table leaves the accumulated message untouched
for every status code without a table entry. -/
lemma statusOverride_outside (status : Nat) (msg0 : String)
    (ves : Option (List ValidationError))
    (h : status ∉ ([400, 401, 403, 404, 422, 429, 500, 502, 503, 504] : List Nat)) :
    statusOverride status msg0 ves = msg0 := by
  unfold statusOverride
  split
  all_goals first
  | rfl
  | (exfalso; simp_all)

/-- Helper: at status 422 with validationErrors assigned, the table
keeps the accumulated message. -/
lemma statusOverride_422_some (msg0 : String) (ves : List ValidationError) :
    statusOverride 422 msg0 (some ves) = msg0 := rfl

/-- Helper: the table entry for status 500. -/
lemma statusOverride_500 (msg0 : String) (ves : Option (List ValidationError)) :
    statusOverride 500 msg0 ves =
      "Internal server error. Please try again later." := rfl

/-- C1: every failure of apiCall and of the apiUpload, apiDownload and
apiDownloadBlob variants — a non-2xx HTTP status, an unparsable body,
or a transport-level exception — reaches the caller as a constructed
VoizmaticApiError: no result ever carries a raw JavaScript exception,
and every non-2xx response and every thrown exception ends in a typed
error rather than an unparsed response escaping as a payload. -/
theorem transport_failures_always_typed :
    ∀ (requiresAuth : Bool) (base : List (String × String)) (blob : String)
      (st : TokenStore) (outcome : FetchOutcome),
      (∀ j : JsExn,
        (apiCall requiresAuth base st outcome).result ≠
            Except.error (Thrown.js j) ∧
          (apiUpload requiresAuth st outcome).result ≠
            Except.error (Thrown.js j) ∧
          (apiDownload requiresAuth st outcome).result ≠
            Except.error (Thrown.js j) ∧
          (apiDownloadBlob blob requiresAuth st outcome).result ≠
            Except.error (Thrown.js j)) ∧
      (∀ r : Response, outcome = .response r → ¬ r.isOk = true →
        (∃ e, (apiCall requiresAuth base st outcome).result =
            Except.error (Thrown.api e)) ∧
          (∃ e, (apiUpload requiresAuth st outcome).result =
            Except.error (Thrown.api e)) ∧
          (∃ e, (apiDownload requiresAuth st outcome).result =
            Except.error (Thrown.api e)) ∧
          (∃ e, (apiDownloadBlob blob requiresAuth st outcome).result =
            Except.error (Thrown.api e))) ∧
      (∀ j : JsExn, outcome = .thrown j →
        (∃ e, (apiCall requiresAuth base st outcome).result =
            Except.error (Thrown.api e)) ∧
          (∃ e, (apiUpload requiresAuth st outcome).result =
            Except.error (Thrown.api e)) ∧
          (∃ e, (apiDownload requiresAuth st outcome).result =
            Except.error (Thrown.api e)) ∧
          (∃ e, (apiDownloadBlob blob requiresAuth st outcome).result =
            Except.error (Thrown.api e))) := by
  intro requiresAuth base blob st outcome
  refine ⟨fun j => ⟨?_, ?_, ?_, ?_⟩, fun r hr hok => ?_, fun j hj => ?_⟩
  · exact mapError_ne_js _ _ _ j
  · exact mapError_ne_js _ _ _ j
  · exact mapError_ne_js _ _ _ j
  · exact mapError_ne_js _ _ _ j
  · subst hr
    obtain ⟨t1, h1⟩ := apiCallTry_not_ok st r hok
    obtain ⟨t2, h2⟩ := apiUploadTry_not_ok st r hok
    obtain ⟨t3, h3⟩ := apiDownloadTry_not_ok st r hok
    obtain ⟨t4, h4⟩ := apiDownloadBlobTry_not_ok blob st r hok
    exact ⟨⟨_, mapError_of_error _ _ _ t1 h1⟩, ⟨_, mapError_of_error _ _ _ t2 h2⟩,
      ⟨_, mapError_of_error _ _ _ t3 h3⟩, ⟨_, mapError_of_error _ _ _ t4 h4⟩⟩
  · subst hj
    exact ⟨⟨_, mapError_of_error _ _ _ (.js j) rfl⟩,
      ⟨_, mapError_of_error _ _ _ (.js j) rfl⟩,
      ⟨_, mapError_of_error _ _ _ (.js j) rfl⟩,
      ⟨_, mapError_of_error _ _ _ (.js j) rfl⟩⟩

/-- Witness for C1 at a concrete 503 response. -/
theorem transport_failures_always_typed_witness :
    ∃ e, (apiCall true [] ⟨none, none⟩
        (.response ⟨503, "Service Unavailable", false, .error "empty"⟩)).result =
      Except.error (Thrown.api e) :=
  ((transport_failures_always_typed true [] "" ⟨none, none⟩
      (.response ⟨503, "Service Unavailable", false, .error "empty"⟩)).2.1
    ⟨503, "Service Unavailable", false, .error "empty"⟩ rfl (by decide)).1

/-- C3 counterexample: a non-2xx response whose JSON body has an array
detail does NOT always get the semicolon-joined message: at status 500
the fixed table entry overrides it, even though the validationErrors
list is still attached. -/
theorem apiCall_array_detail_message_overridden_at_500 :
    ((apiCall true [] ⟨none, none⟩
        (.response ⟨500, "Internal Server Error", true, .ok phoneDetailBody⟩)).result =
      Except.error (Thrown.api ⟨"Internal server error. Please try again later.",
        some 500, some "Internal Server Error", some [phoneValidationError]⟩)) ∧
    String.intercalate "; " ([phoneValidationError].map formatFieldError) =
      "phone: required" ∧
    "Internal server error. Please try again later." ≠ "phone: required" :=
  ⟨rfl, rfl, by decide⟩

/-- C3 as amended: for a non-2xx, non-401 response whose JSON body has
a detail array decoding to FieldErrors, the resulting typed error
carries exactly that FieldError list in order and the response status;
its message is the semicolon join of field-colon-msg entries (field
being the loc path with the first segment dropped, joined by dots,
falling back to the literal word field when empty) passed through the
fixed status table — in particular the join survives verbatim at
status 422. -/
theorem apiCall_array_detail_validation_errors :
    ∀ (requiresAuth : Bool) (base : List (String × String))
      (st : TokenStore) (r : Response) (d : Json) (l : List Json)
      (ves : List ValidationError),
      errorDataOf r = some d →
      d.lookup "detail" = some (Json.arr l) →
      l.mapM ValidationError.ofJson = some ves →
      ¬ r.isOk = true → r.status ≠ 401 →
      ∃ e : VoizmaticApiError,
        (apiCall requiresAuth base st (.response r)).result =
            Except.error (Thrown.api e) ∧
          e.validationErrors = some ves ∧
          e.status = some r.status ∧
          e.message = statusOverride r.status
            (String.intercalate "; " (ves.map formatFieldError)) (some ves) ∧
          (r.status = 422 →
            e.message = String.intercalate "; " (ves.map formatFieldError)) := by
  intro requiresAuth base st r d l ves hed hdet hmap hok h401
  have hstep : errorBodyStep (requestFailedMsg r.status) (errorDataOf r) =
      .ok (String.intercalate "; " (ves.map formatFieldError), some ves) := by
    rw [hed]; simp only [errorBodyStep, hdet, hmap]
  have hp := parseApiError_of_step r (errorDataOf r) _ _ hstep
  refine ⟨_, apiCall_result_of_parse requiresAuth base st r h401 hok _ hp,
    rfl, rfl, rfl, fun h422 => ?_⟩
  simp only [VoizmaticApiError.ofApiError, h422, statusOverride_422_some]

set_option maxRecDepth 4000 in
/-- Witness for C3 as amended, at the 422 body from the spec: exactly
one FieldError with location body.phone and rendered field name
phone. -/
theorem apiCall_array_detail_validation_errors_witness :
    (∃ e : VoizmaticApiError,
      (apiCall true [] ⟨none, none⟩
          (.response ⟨422, "Unprocessable Entity", true, .ok phoneDetailBody⟩)).result =
          Except.error (Thrown.api e) ∧
        e.validationErrors = some [phoneValidationError] ∧
        e.status = some 422 ∧
        e.message = statusOverride 422
          (String.intercalate "; " ([phoneValidationError].map formatFieldError))
          (some [phoneValidationError]) ∧
        (422 = 422 →
          e.message = String.intercalate "; "
            ([phoneValidationError].map formatFieldError))) ∧
    fieldName phoneValidationError.loc = "phone" ∧
    String.intercalate "; " ([phoneValidationError].map formatFieldError) =
      "phone: required" :=
  ⟨apiCall_array_detail_validation_errors true [] ⟨none, none⟩
      ⟨422, "Unprocessable Entity", true, .ok phoneDetailBody⟩
      phoneDetailBody [phoneDetailEntry] [phoneValidationError]
      rfl rfl (by decide) (by decide) (by decide),
    rfl, rfl⟩

/-- C4 counterexample: a string-valued detail is NOT always used
verbatim: at status 404 the fixed table message overrides the
server-provided string. -/
theorem apiCall_string_detail_overridden_at_404 :
    ((apiCall true [] ⟨none, none⟩
        (.response ⟨404, "Not Found", true,
          .ok (Json.obj [("detail", Json.str "Campaign 42 does not exist")])⟩)).result =
      Except.error (Thrown.api ⟨"Resource not found.", some 404,
        some "Not Found", none⟩)) ∧
    "Resource not found." ≠ "Campaign 42 does not exist" :=
  ⟨rfl, by decide⟩

/-- C4 as amended: a string-valued detail reaches the message only
through the fixed status table: it is verbatim for status codes outside
the table (including any code without a table entry), while for the
table statuses 401, 403, 404, 422, 429, 500, 502, 503 and 504 the
canned message overrides it (400 keeps a non-empty string); when the
body has no array detail, no string detail and no string message field,
the message is the generic request-failed default passed through the
same table. -/
theorem apiCall_string_detail_message :
    ∀ (requiresAuth : Bool) (base : List (String × String))
      (st : TokenStore) (r : Response) (d : Json),
      errorDataOf r = some d →
      ¬ r.isOk = true → r.status ≠ 401 →
      (∀ s : String, d.lookup "detail" = some (Json.str s) →
        ∃ e : VoizmaticApiError,
          (apiCall requiresAuth base st (.response r)).result =
              Except.error (Thrown.api e) ∧
            e.status = some r.status ∧
            e.validationErrors = none ∧
            e.message = statusOverride r.status s none ∧
            (r.status ∉ ([400, 401, 403, 404, 422, 429, 500, 502, 503, 504] : List Nat) →
              e.message = s)) ∧
      ((∀ xs : List Json, d.lookup "detail" ≠ some (Json.arr xs)) →
        (∀ s : String, d.lookup "detail" ≠ some (Json.str s)) →
        (∀ s : String, d.lookup "message" ≠ some (Json.str s)) →
        ∃ e : VoizmaticApiError,
          (apiCall requiresAuth base st (.response r)).result =
              Except.error (Thrown.api e) ∧
            e.status = some r.status ∧
            e.message = statusOverride r.status (requestFailedMsg r.status) none ∧
            (r.status ∉ ([400, 401, 403, 404, 422, 429, 500, 502, 503, 504] : List Nat) →
              e.message = requestFailedMsg r.status)) := by
  intro requiresAuth base st r d hed hok h401
  constructor
  · intro s hdet
    have hstep : errorBodyStep (requestFailedMsg r.status) (errorDataOf r) =
        .ok (s, none) := by
      rw [hed]; simp only [errorBodyStep, hdet]
    have hp := parseApiError_of_step r (errorDataOf r) _ _ hstep
    refine ⟨_, apiCall_result_of_parse requiresAuth base st r h401 hok _ hp,
      rfl, rfl, rfl, fun hout => ?_⟩
    simp only [VoizmaticApiError.ofApiError]
    exact statusOverride_outside r.status s none hout
  · intro hnarr hnstr hnmsg
    have hstep : errorBodyStep (requestFailedMsg r.status) (errorDataOf r) =
        .ok (requestFailedMsg r.status, none) := by
      rw [hed]
      simp only [errorBodyStep]
    have hp := parseApiError_of_step r (errorDataOf r) _ _ hstep
    refine ⟨_, apiCall_result_of_parse requiresAuth base st r h401 hok _ hp,
      rfl, rfl, fun hout => ?_⟩
    simp only [VoizmaticApiError.ofApiError]
    exact statusOverride_outside r.status _ none hout

/-- Witness for C4 as amended, at a 418 response with a string detail:
the server string survives verbatim because 418 has no table entry. -/
theorem apiCall_string_detail_message_witness :
    ∃ e : VoizmaticApiError,
      (apiCall true [] ⟨none, none⟩
          (.response ⟨418, "I am a teapot", true,
            .ok (Json.obj [("detail", Json.str "short and stout")])⟩)).result =
          Except.error (Thrown.api e) ∧
        e.status = some 418 ∧
        e.validationErrors = none ∧
        e.message = statusOverride 418 "short and stout" none ∧
        (418 ∉ ([400, 401, 403, 404, 422, 429, 500, 502, 503, 504] : List Nat) →
          e.message = "short and stout") :=
  (apiCall_string_detail_message true [] ⟨none, none⟩
      ⟨418, "I am a teapot", true,
        .ok (Json.obj [("detail", Json.str "short and stout")])⟩
      (Json.obj [("detail", Json.str "short and stout")])
      rfl (by decide) (by decide)).1 "short and stout" rfl

/-- C6 counterexample: a 401 response with an unparsable body does not
take its message from the fallback table: the 401 branch fires first
with its own fixed session-expired message, which differs from the
table entry for 401. -/
theorem apiCall_401_unparsable_body_message_not_from_table :
    ((apiCall true [] ⟨some "tok", some "2030-01-01"⟩
        (.response ⟨401, "Unauthorized", true, .error "Unexpected token"⟩)).result =
      Except.error (Thrown.api ⟨"Session expired. Please login again.",
        some 401, some "Unauthorized", none⟩)) ∧
    statusOverride 401 (requestFailedMsg 401) none =
      "Session expired or invalid. Please login again." ∧
    "Session expired. Please login again." ≠
      "Session expired or invalid. Please login again." :=
  ⟨rfl, rfl, by decide⟩

/-- C6 as amended: on every non-2xx response whose body is not read as
JSON (no JSON content type, or a JSON parse failure, which is swallowed
by the inner catch), the call still resolves to a typed error — no raw
parse exception escapes — with the response status attached; for every
status other than 401 the message comes from the fixed fallback table
applied to the generic default, while 401 gets the fixed
session-expired message of the 401 branch; in particular status 500
yields the internal-server-error message. -/
theorem apiCall_unparsable_body_degrades_to_table :
    ∀ (requiresAuth : Bool) (base : List (String × String))
      (st : TokenStore) (r : Response),
      ¬ r.isOk = true → errorDataOf r = none →
      (∀ j : JsExn, (apiCall requiresAuth base st (.response r)).result ≠
        Except.error (Thrown.js j)) ∧
      ∃ e : VoizmaticApiError,
        (apiCall requiresAuth base st (.response r)).result =
            Except.error (Thrown.api e) ∧
          e.status = some r.status ∧
          e.validationErrors = none ∧
          (r.status ≠ 401 →
            e.message = statusOverride r.status (requestFailedMsg r.status) none) ∧
          (r.status = 401 → e.message = "Session expired. Please login again.") ∧
          (r.status = 500 →
            e.message = "Internal server error. Please try again later.") := by
  intro requiresAuth base st r hok hed
  refine ⟨fun j => mapError_ne_js _ _ _ j, ?_⟩
  by_cases h401 : r.status = 401
  · refine ⟨sessionExpiredError r, ?_, ?_, rfl, fun h => absurd h401 h,
      fun _ => rfl, fun h500 => absurd h401 (by rw [h500]; decide)⟩
    · simp [apiCall, apiCallTry, h401, Except.mapError, normalizeThrown]
    · simp [sessionExpiredError, h401]
  · have hstep : errorBodyStep (requestFailedMsg r.status) (errorDataOf r) =
        .ok (requestFailedMsg r.status, none) := by rw [hed]; rfl
    have hp := parseApiError_of_step r (errorDataOf r) _ _ hstep
    refine ⟨_, apiCall_result_of_parse requiresAuth base st r h401 hok _ hp,
      rfl, rfl, fun _ => rfl, fun h => absurd h h401, fun h500 => ?_⟩
    simp only [VoizmaticApiError.ofApiError, h500, statusOverride_500]

/-- Witness for C6 as amended, at the concrete 500 response with an
unparsable body. -/
theorem apiCall_unparsable_body_degrades_to_table_witness :
    ∃ e : VoizmaticApiError,
      (apiCall true [] ⟨none, none⟩
          (.response http500UnparsableResponse)).result =
          Except.error (Thrown.api e) ∧
        e.status = some 500 ∧
        e.message = "Internal server error. Please try again later." := by
  obtain ⟨e, h1, h2, h3, h4, h5, h6⟩ :=
    (apiCall_unparsable_body_degrades_to_table true [] ⟨none, none⟩
      http500UnparsableResponse (by decide) rfl).2
  exact ⟨e, h1, h2, h6 rfl⟩

/-- C7: isTokenValid is true exactly when a (non-empty) token and a
(non-empty) expiry are stored and the parsed expiry lies strictly after
the current time; and in the login scenario, a successful login stores
the returned token and expiry, isTokenValid is true before the expiry
instant and false from the expiry instant on, with no clear call in
between. -/
theorem isTokenValid_iff_future_expiry :
    (∀ (parseDate : String → Option Int) (now : Int) (st : TokenStore),
      tokenManager.isTokenValid parseDate now st = true ↔
        ∃ tok expiry t, st.token = some tok ∧ tok ≠ "" ∧
          st.expiry = some expiry ∧ expiry ≠ "" ∧
          parseDate expiry = some t ∧ now < t) ∧
    (∀ (parseDate : String → Option Int) (st : TokenStore)
        (resp : AuthResponse) (t now1 now2 : Int),
      resp.access_token ≠ "" → resp.expires_at ≠ "" →
      parseDate resp.expires_at = some t → now1 < t → t ≤ now2 →
      tokenManager.isTokenValid parseDate now1 (loginStoreToken resp st) = true ∧
      tokenManager.isTokenValid parseDate now2 (loginStoreToken resp st) = false) := by
  constructor
  · intro parseDate now st
    rcases st with ⟨tokOpt, expOpt⟩
    cases tokOpt with
    | none => simp [tokenManager.isTokenValid]
    | some tok =>
      cases expOpt with
      | none => simp [tokenManager.isTokenValid]
      | some expiry =>
        simp only [tokenManager.isTokenValid]
        constructor
        · intro h
          by_cases h1 : tok = "" ∨ expiry = ""
          · rw [if_pos h1] at h
            exact absurd h (by simp)
          · rw [if_neg h1] at h
            push_neg at h1
            rcases hp : parseDate expiry with _ | t
            · rw [hp] at h
              exact absurd h (by simp)
            · rw [hp] at h
              simp only [decide_eq_true_eq] at h
              exact ⟨tok, expiry, t, rfl, h1.1, rfl, h1.2, hp, h⟩
        · rintro ⟨tok2, expiry2, t, htok, hne, hexp, hne2, hp, hlt⟩
          injection htok with htok
          injection hexp with hexp
          subst htok
          subst hexp
          have hcond : ¬ (tok = "" ∨ expiry = "") := by
            push_neg
            exact ⟨hne, hne2⟩
          rw [if_neg hcond, hp]
          simp [hlt]
  · intro parseDate st resp t now1 now2 hta hte hp h1 h2
    have hcond : ¬ (resp.access_token = "" ∨ resp.expires_at = "") := by
      push_neg
      exact ⟨hta, hte⟩
    unfold loginStoreToken tokenManager.setToken
    constructor
    · simp only [tokenManager.isTokenValid]
      rw [if_neg hcond, hp]
      simp [h1]
    · simp only [tokenManager.isTokenValid]
      rw [if_neg hcond, hp]
      simp
      omega

/-- Witness for C7 at a concrete parser, token and clock values. -/
theorem isTokenValid_iff_future_expiry_witness :
    tokenManager.isTokenValid
        (fun s => if s = "2030-01-01" then some 100 else none) 50
        (loginStoreToken ⟨"tok", "bearer", "2030-01-01"⟩ ⟨none, none⟩) = true ∧
      tokenManager.isTokenValid
        (fun s => if s = "2030-01-01" then some 100 else none) 100
        (loginStoreToken ⟨"tok", "bearer", "2030-01-01"⟩ ⟨none, none⟩) = false :=
  isTokenValid_iff_future_expiry.2
    (fun s => if s = "2030-01-01" then some 100 else none)
    ⟨none, none⟩ ⟨"tok", "bearer", "2030-01-01"⟩ 100 50 100
    (by decide) (by decide) (by decide) (by decide) (by decide)

/-- C8: getErrorSeverity is a total deterministic classification that
matches the specified priority order — validation, not-found,
authentication and permission, server, network, unclassified — and the
transport-level network failure produced by the client (severity error,
no status) is distinguished by the predicate functions from the typed
error for an HTTP 500 (severity critical). -/
theorem getErrorSeverity_classification :
    (∀ e : ErrVal, getErrorSeverity e = specSeverity e) ∧
    (getErrorSeverity (.apiErr networkFailureApiError) = .error ∧
      isNetworkError (.apiErr networkFailureApiError) = true ∧
      isServerError (.apiErr networkFailureApiError) = false ∧
      networkFailureApiError.status = none) ∧
    (getErrorSeverity (.apiErr http500ApiError) = .critical ∧
      isServerError (.apiErr http500ApiError) = true ∧
      isNetworkError (.apiErr http500ApiError) = false) ∧
    ((apiCall true [] ⟨none, none⟩ (.thrown (.typeError "Failed to fetch"))).result =
      Except.error (Thrown.api networkFailureApiError)) ∧
    ((apiCall true [] ⟨none, none⟩ (.response http500UnparsableResponse)).result =
      Except.error (Thrown.api http500ApiError)) := by
  refine ⟨?_, ⟨rfl, rfl, rfl, rfl⟩, ⟨rfl, rfl, rfl⟩, rfl, rfl⟩
  intro e
  by_cases h1 : isAuthError e = true <;> by_cases h2 : isPermissionError e = true <;>
    simp [getErrorSeverity, specSeverity, h1, h2]

set_option maxRecDepth 4000 in
/-- C9 counterexample: for a typed error carrying two FieldErrors (as
built by the transport layer for a 422 body with two entries),
getErrorMessage returns the newline-joined rendering, which differs
from the semicolon-joined short summary stored in the message field. -/
theorem getErrorMessage_two_field_mismatch :
    ((apiCall true [] ⟨none, none⟩
        (.response ⟨422, "Unprocessable Entity", true, .ok twoFieldDetailBody⟩)).result =
      Except.error (Thrown.api twoFieldApiError)) ∧
    getErrorMessage (.apiErr twoFieldApiError) = "phone: required\nemail: invalid" ∧
    twoFieldApiError.message = "phone: required; email: invalid" ∧
    getErrorMessage (.apiErr twoFieldApiError) ≠ twoFieldApiError.message :=
  ⟨rfl, rfl, rfl, by decide⟩

/-- C9 as amended: on a typed error with a non-empty FieldError list,
getErrorMessage equals the newline-joined getValidationErrorMessage
rendering used by the multi-field ErrorAlert display; the rendering is
a deterministic function of the FieldError list alone (two errors with
the same list render identically); and it coincides with the
semicolon-joined short summary exactly in the one-entry case. -/
theorem getErrorMessage_newline_form :
    ∀ (e : VoizmaticApiError) (v : ValidationError) (vs : List ValidationError),
      e.validationErrors = some (v :: vs) →
      getErrorMessage (.apiErr e) = e.getValidationErrorMessage ∧
      e.getValidationErrorMessage =
        String.intercalate "\n" ((v :: vs).map formatFieldError) ∧
      (∀ e2 : VoizmaticApiError, e2.validationErrors = some (v :: vs) →
        getErrorMessage (.apiErr e2) = getErrorMessage (.apiErr e)) ∧
      (vs = [] → e.getValidationErrorMessage =
        String.intercalate "; " ((v :: vs).map formatFieldError)) := by
  intro e v vs h
  have hmsg : e.getValidationErrorMessage =
      String.intercalate "\n" ((v :: vs).map formatFieldError) := by
    simp only [VoizmaticApiError.getValidationErrorMessage, h]
  have hget : getErrorMessage (.apiErr e) = e.getValidationErrorMessage := by
    simp only [getErrorMessage, h]
    simp
  refine ⟨hget, hmsg, fun e2 h2 => ?_, fun hnil => ?_⟩
  · have hmsg2 : e2.getValidationErrorMessage =
        String.intercalate "\n" ((v :: vs).map formatFieldError) := by
      simp only [VoizmaticApiError.getValidationErrorMessage, h2]
    have hget2 : getErrorMessage (.apiErr e2) = e2.getValidationErrorMessage := by
      simp only [getErrorMessage, h2]
      simp
    rw [hget2, hmsg2, hget, hmsg]
  · subst hnil
    rw [hmsg]
    rfl

/-- Witness for C9 as amended, at the two-field typed error. -/
theorem getErrorMessage_newline_form_witness :
    getErrorMessage (.apiErr twoFieldApiError) =
      twoFieldApiError.getValidationErrorMessage :=
  (getErrorMessage_newline_form twoFieldApiError phoneValidationError
    [⟨[LocSeg.str "body", LocSeg.str "email"], "invalid", "value_error"⟩] rfl).1

end Voizmatic
